import Mathlib

/-!
Shallow embedding of `yuzhangoscar/blacklisted-mock-api-server`.

The repository contains two Express server variants:
* `src/server.js` — the full variant, with two rate limiters and swagger
  documentation endpoints;
* `src/unnamed/part_000` — the minimal variant, with the same three core
  behaviours (health, blacklist, 404 fallback, error handler) and nothing else.

We embed each route handler as a pure Lean function.  Time-dependent runtime
inputs (`new Date()`, `process.uptime()`) are modelled as an explicit `Clock`
argument; the rate limiters' per-request decisions are modelled as explicit
boolean inputs to the full variant.  JSON response bodies are modelled by an
inductive `Json` type; numbers in bodies are rationals (JS numbers that occur
here are the integer `count` and the fractional `uptime`).
-/

namespace Blacklist

/-- JSON values, as produced by the server's `res.json(...)` calls. -/
inductive Json where
  | str (s : String)
  | num (q : ℚ)
  | bool (b : Bool)
  | arr (l : List Json)
  | obj (fields : List (String × Json))

/-- The parsed value of the `name` query parameter, as Express's query parser
delivers it to `req.query.name`: absent (`undefined`), a single string, or an
array of strings (when the key is repeated in the query string). -/
inductive QueryVal where
  | undef
  | str (s : String)
  | arr (l : List String)
deriving DecidableEq

/-- An inbound HTTP request, abstracted to the parts the handlers read:
method, path, and the parsed `name` query parameter. -/
structure Request where
  method : String
  path : String
  nameParam : QueryVal

/-- An HTTP response: status code and JSON body. -/
structure Response where
  status : Nat
  body : Json

/-- Runtime clock inputs read by the health handler: `new Date()` as
milliseconds since the Unix epoch, and `process.uptime()` in seconds. -/
structure Clock where
  nowMs : Nat
  uptime : ℚ

/-- A JavaScript `Error` as seen by the Express error handler: the handler
reads `err.message` for the response and `err.stack` only for logging. -/
structure JsError where
  message : String
  stack : String

/-- Field lookup in a JSON object (first match), `none` otherwise. -/
def getField : Json → String → Option Json
  | Json.obj fields, k => fields.lookup k
  | _, _ => none

/-- Extract a string from an optional JSON value. -/
def asString : Option Json → Option String
  | some (Json.str s) => some s
  | _ => none

/-- Extract a number from an optional JSON value. -/
def asNum : Option Json → Option ℚ
  | some (Json.num q) => some q
  | _ => none

/-- Extract a boolean from an optional JSON value. -/
def asBool : Option Json → Option Bool
  | some (Json.bool b) => some b
  | _ => none

/-- `String.prototype.toLowerCase`, restricted to the ASCII range (all
blacklist entries are ASCII; `Char.toLower` lowers exactly `A`–`Z`). -/
def jsToLower (s : String) : String := s.map Char.toLower

/-- The fixed blacklist (`const blacklistedNames = [...]`, identical in both
variants). -/
def blacklistedNames : List String :=
  ["John Smith", "Jane Doe", "Mike Johnson", "Sarah Wilson", "Robert Brown",
   "Emily Davis", "David Miller", "Lisa Garcia", "James Rodriguez",
   "Maria Martinez"]

/-- Branch A of the blacklist handler: `{ blacklistedNames, count }`. -/
def listingResponse : Response :=
  { status := 200,
    body := Json.obj
      [("blacklistedNames", Json.arr (blacklistedNames.map Json.str)),
       ("count", Json.num blacklistedNames.length)] }

/-- Branch B of the blacklist handler: `{ name, isBlacklisted }` with the
case-insensitive membership test
`blacklistedNames.some(b => b.toLowerCase() === name.toLowerCase())`. -/
def checkResponse (s : String) : Response :=
  { status := 200,
    body := Json.obj
      [("name", Json.str s),
       ("isBlacklisted",
        Json.bool (blacklistedNames.any fun b => jsToLower b == jsToLower s))] }

/-- The decimal digit character for `n % 10`. -/
def digitChar (n : Nat) : Char := Char.ofNat (48 + n % 10)

/-- Two-digit zero-padded decimal rendering (faithful for `n < 100`). -/
def pad2 (n : Nat) : String := String.mk [digitChar (n / 10), digitChar n]

/-- Three-digit zero-padded decimal rendering (faithful for `n < 1000`). -/
def pad3 (n : Nat) : String :=
  String.mk [digitChar (n / 100), digitChar (n / 10), digitChar n]

/-- Four-digit zero-padded decimal rendering (faithful for `n < 10000`). -/
def pad4 (n : Nat) : String :=
  String.mk [digitChar (n / 1000), digitChar (n / 100), digitChar (n / 10),
             digitChar n]

/-- Proleptic Gregorian civil date `(year, month, day)` from a count of days
since 1970-01-01, the standard era-based algorithm (equivalent to ECMA-262's
`YearFromTime`/`MonthFromTime`/`DateFromTime` for non-negative time values). -/
def civilFromDays (days : Nat) : Nat × Nat × Nat :=
  let z := days + 719468
  let era := z / 146097
  let doe := z % 146097
  let yoe := (doe - doe / 1460 + doe / 36524 - doe / 146096) / 365
  let doy := doe - (365 * yoe + yoe / 4 - yoe / 100)
  let mp := (5 * doy + 2) / 153
  let d := doy - (153 * mp + 2) / 5 + 1
  let m := if mp < 10 then mp + 3 else mp - 9
  (yoe + era * 400 + (if m ≤ 2 then 1 else 0), m, d)

/-- `Date.prototype.toISOString` (ECMA-262) on a non-negative time value `t`
in milliseconds since the Unix epoch: `YYYY-MM-DDTHH:MM:SS.mmmZ`. -/
def toISOString (t : Nat) : String :=
  let ymd := civilFromDays (t / 86400000)
  pad4 ymd.1 ++ "-" ++ pad2 ymd.2.1 ++ "-" ++ pad2 ymd.2.2 ++ "T" ++
    pad2 (t / 3600000 % 24) ++ ":" ++ pad2 (t / 60000 % 60) ++ ":" ++
    pad2 (t / 1000 % 60) ++ "." ++ pad3 (t % 1000) ++ "Z"

/-- Is `c` an ASCII decimal digit? -/
def isDigitCh (c : Char) : Bool := 48 ≤ c.toNat && c.toNat ≤ 57

/-- Numeric value of an ASCII digit character. -/
def digitVal (c : Char) : Nat := c.toNat - 48

/-- Syntactic and range check for an ISO-8601 UTC instant with millisecond
precision: exactly `YYYY-MM-DDTHH:MM:SS.mmmZ` with in-range month, day, hour,
minute and second fields. -/
def isValidIso (s : String) : Bool :=
  match s.data with
  | [y1, y2, y3, y4, h1, m1, m2, h2, d1, d2, tc,
     hh1, hh2, c1, mi1, mi2, c2, s1, s2, dot, f1, f2, f3, zc] =>
      ([y1, y2, y3, y4, m1, m2, d1, d2, hh1, hh2,
        mi1, mi2, s1, s2, f1, f2, f3].all isDigitCh) &&
      (h1 == '-') && (h2 == '-') && (tc == 'T') &&
      (c1 == ':') && (c2 == ':') && (dot == '.') && (zc == 'Z') &&
      (1 ≤ digitVal m1 * 10 + digitVal m2) &&
      (digitVal m1 * 10 + digitVal m2 ≤ 12) &&
      (1 ≤ digitVal d1 * 10 + digitVal d2) &&
      (digitVal d1 * 10 + digitVal d2 ≤ 31) &&
      (digitVal hh1 * 10 + digitVal hh2 < 24) &&
      (digitVal mi1 * 10 + digitVal mi2 < 60) &&
      (digitVal s1 * 10 + digitVal s2 < 60)
  | _ => false

/-- The `/health` handler (identical in both variants). -/
def healthResponse (c : Clock) : Response :=
  { status := 200,
    body := Json.obj
      [("status", Json.str "healthy"),
       ("timestamp", Json.str (toISOString c.nowMs)),
       ("uptime", Json.num c.uptime),
       ("service", Json.str "blacklisted-mock-api-server")] }

/-- The `app.use('*')` 404 fallback (identical in both variants). -/
def notFoundResponse : Response :=
  { status := 404,
    body := Json.obj
      [("error", Json.str "Endpoint not found"),
       ("availableEndpoints",
        Json.arr [Json.str "GET /health", Json.str "GET /blacklisted",
                  Json.str "GET /blacklisted?name=<name>"])] }

/-- The top-level Express error handler (identical in both variants):
logs `err.stack` server-side and answers
`500 { error: 'Internal server error', message: err.message }`. -/
def errorHandler (e : JsError) : Response :=
  { status := 500,
    body := Json.obj
      [("error", Json.str "Internal server error"),
       ("message", Json.str e.message)] }

/-- The `GET /blacklisted` handler.  `!name` is true exactly for an absent
parameter or the empty string; a truthy string goes to the membership check;
an array value has no `toLowerCase` method, so `name.toLowerCase()` throws a
`TypeError` which Express forwards to the error handler.  (The stack string
is runtime-generated; the error handler never sends it to the client.) -/
def blacklistedHandler : QueryVal → Response
  | QueryVal.undef => listingResponse
  | QueryVal.str s => if s = "" then listingResponse else checkResponse s
  | QueryVal.arr _ =>
      errorHandler
        { message := "name.toLowerCase is not a function",
          stack := "TypeError: name.toLowerCase is not a function" }

/-- The minimal variant (`src/unnamed/part_000`): `GET /health`,
`GET /blacklisted`, then the `*` 404 fallback. -/
def serverMin (c : Clock) (req : Request) : Response :=
  if req.method = "GET" ∧ req.path = "/health" then healthResponse c
  else if req.method = "GET" ∧ req.path = "/blacklisted" then
    blacklistedHandler req.nameParam
  else notFoundResponse

/-- Does the path fall under the `/api-docs` mount or `/api-docs.json`
route of the full variant?  (The prefix test is on the character list, which
is what a byte-prefix test on UTF-8 strings amounts to.) -/
def isDocsPath (p : String) : Bool :=
  p == "/api-docs" || p == "/api-docs.json" || "/api-docs/".data.isPrefixOf p.data

/-- The full variant (`src/server.js`).  The general limiter is applied by
`app.use` before every route; the blacklist limiter is attached to the
`GET /blacklisted` route only.  Each limiter's allow/reject decision for this
request is an explicit boolean input; `spec` is the swagger-jsdoc–generated
OpenAPI document served by the documentation endpoints (its content comes
from an external library, so it is a parameter here, served with status
200). -/
def serverFull (spec : Json) (c : Clock)
    (generalLimited blacklistLimited : Bool) (req : Request) : Response :=
  if generalLimited then
    { status := 429,
      body := Json.obj
        [("error", Json.str "Too many requests from this IP"),
         ("retryAfter", Json.str "15 minutes")] }
  else if isDocsPath req.path then { status := 200, body := spec }
  else if req.method = "GET" ∧ req.path = "/health" then healthResponse c
  else if req.method = "GET" ∧ req.path = "/blacklisted" then
    if blacklistLimited then
      { status := 429,
        body := Json.obj
          [("error", Json.str "Too many blacklist requests from this IP"),
           ("retryAfter", Json.str "1 minute")] }
    else blacklistedHandler req.nameParam
  else notFoundResponse

/-- Branch A of the blacklist handler applies: `GET /blacklisted` with the
`name` parameter absent or the empty string (`!name` is truthy in JS). -/
def isBranchA (req : Request) : Prop :=
  req.method = "GET" ∧ req.path = "/blacklisted" ∧
    (req.nameParam = QueryVal.undef ∨ req.nameParam = QueryVal.str "")

/-! ### Helper lemmas -/

theorem digitChar_isDigit (n : Nat) : isDigitCh (digitChar n) = true := by
  have h : n % 10 < 10 := Nat.mod_lt _ (by omega)
  have hk : ∀ k, k < 10 → isDigitCh (Char.ofNat (48 + k)) = true := by decide
  exact hk (n % 10) h

theorem digitVal_digitChar (n : Nat) : digitVal (digitChar n) = n % 10 := by
  have h : n % 10 < 10 := Nat.mod_lt _ (by omega)
  have hk : ∀ k, k < 10 → digitVal (Char.ofNat (48 + k)) = k := by decide
  exact hk (n % 10) h

/-- For any day count up to 9999-12-31, the civil date has a four-digit year
and in-range month and day fields. -/
theorem civilFromDays_bounds (days : Nat) (h : days ≤ 2932896) :
    (civilFromDays days).1 ≤ 9999 ∧
    1 ≤ (civilFromDays days).2.1 ∧ (civilFromDays days).2.1 ≤ 12 ∧
    1 ≤ (civilFromDays days).2.2 ∧ (civilFromDays days).2.2 ≤ 31 := by
  unfold civilFromDays
  dsimp only
  split <;> split <;> omega

/-- For any time value up to 9999-12-31T23:59:59.999Z, `toISOString` yields a
valid ISO-8601 UTC instant with millisecond precision. -/
theorem isValidIso_toISOString (t : Nat) (ht : t ≤ 253402300799999) :
    isValidIso (toISOString t) = true := by
  obtain ⟨hy, hm1, hm2, hd1, hd2⟩ :=
    civilFromDays_bounds (t / 86400000) (by omega)
  have hdata : (toISOString t).data =
      [digitChar ((civilFromDays (t / 86400000)).1 / 1000),
       digitChar ((civilFromDays (t / 86400000)).1 / 100),
       digitChar ((civilFromDays (t / 86400000)).1 / 10),
       digitChar (civilFromDays (t / 86400000)).1, '-',
       digitChar ((civilFromDays (t / 86400000)).2.1 / 10),
       digitChar (civilFromDays (t / 86400000)).2.1, '-',
       digitChar ((civilFromDays (t / 86400000)).2.2 / 10),
       digitChar (civilFromDays (t / 86400000)).2.2, 'T',
       digitChar (t / 3600000 % 24 / 10), digitChar (t / 3600000 % 24), ':',
       digitChar (t / 60000 % 60 / 10), digitChar (t / 60000 % 60), ':',
       digitChar (t / 1000 % 60 / 10), digitChar (t / 1000 % 60), '.',
       digitChar (t % 1000 / 100), digitChar (t % 1000 / 10),
       digitChar (t % 1000), 'Z'] := by
    simp [toISOString, pad4, pad3, pad2, String.data_append]
  have hs : toISOString t = String.mk
      [digitChar ((civilFromDays (t / 86400000)).1 / 1000),
       digitChar ((civilFromDays (t / 86400000)).1 / 100),
       digitChar ((civilFromDays (t / 86400000)).1 / 10),
       digitChar (civilFromDays (t / 86400000)).1, '-',
       digitChar ((civilFromDays (t / 86400000)).2.1 / 10),
       digitChar (civilFromDays (t / 86400000)).2.1, '-',
       digitChar ((civilFromDays (t / 86400000)).2.2 / 10),
       digitChar (civilFromDays (t / 86400000)).2.2, 'T',
       digitChar (t / 3600000 % 24 / 10), digitChar (t / 3600000 % 24), ':',
       digitChar (t / 60000 % 60 / 10), digitChar (t / 60000 % 60), ':',
       digitChar (t / 1000 % 60 / 10), digitChar (t / 1000 % 60), '.',
       digitChar (t % 1000 / 100), digitChar (t % 1000 / 10),
       digitChar (t % 1000), 'Z'] := by
    cases hstr : toISOString t with
    | mk d => rw [hstr] at hdata; exact congrArg String.mk hdata
  rw [hs]
  simp only [isValidIso, List.all_cons, List.all_nil, digitChar_isDigit,
    Bool.and_true, Bool.true_and, Bool.and_eq_true, beq_iff_eq,
    decide_eq_true_eq, digitVal_digitChar]
  repeat' apply And.intro
  all_goals first | trivial | omega

/-- The blacklist handler answers either 200 or (on an array-valued `name`)
500, never anything else. -/
theorem blacklistedHandler_status (q : QueryVal) :
    (blacklistedHandler q).status = 200 ∨ (blacklistedHandler q).status = 500 := by
  cases q with
  | undef => left; rfl
  | str s =>
      by_cases h : s = "" <;>
        simp [blacklistedHandler, h, listingResponse, checkResponse]
  | arr l => right; rfl

/-- Branch B of the blacklist handler, spelled out: status 200, echoed name,
and the case-insensitive membership bit. -/
theorem blacklistedHandler_str (s : String) (hs : s ≠ "") :
    blacklistedHandler (QueryVal.str s) =
      { status := 200,
        body := Json.obj
          [("name", Json.str s),
           ("isBlacklisted",
            Json.bool (blacklistedNames.any
              fun b => jsToLower b == jsToLower s))] } := by
  simp [blacklistedHandler, hs, checkResponse]

/-- Branch A of the blacklist handler on either falsy value. -/
theorem blacklistedHandler_falsy (q : QueryVal)
    (hq : q = QueryVal.undef ∨ q = QueryVal.str "") :
    blacklistedHandler q = listingResponse := by
  rcases hq with h | h <;> subst h <;> simp [blacklistedHandler]

/-! ### Claims -/

/-- C1: for `GET /blacklisted` with a non-empty string `name`, both variants
answer 200 with `isBlacklisted` true iff some blacklist entry equals the
supplied name after lowercasing both sides (full-string equality), and with
`name` echoed byte-for-byte unmodified. -/
theorem blacklisted_check_contract (spec : Json) (c : Clock) (s : String)
    (hs : s ≠ "") :
    (serverMin c ⟨"GET", "/blacklisted", QueryVal.str s⟩).status = 200 ∧
    getField (serverMin c ⟨"GET", "/blacklisted", QueryVal.str s⟩).body "name"
      = some (Json.str s) ∧
    (getField (serverMin c ⟨"GET", "/blacklisted", QueryVal.str s⟩).body
        "isBlacklisted" = some (Json.bool true) ↔
      ∃ b ∈ blacklistedNames, jsToLower b = jsToLower s) ∧
    serverFull spec c false false ⟨"GET", "/blacklisted", QueryVal.str s⟩ =
      serverMin c ⟨"GET", "/blacklisted", QueryVal.str s⟩ := by
  have hdocs : isDocsPath "/blacklisted" = false := by decide
  refine ⟨?_, ?_, ?_, ?_⟩ <;>
    simp [serverMin, serverFull, hdocs, blacklistedHandler, checkResponse,
      getField, hs, List.lookup, List.any_eq_true]

/-- Witness for C1 at the spec's concrete scenario `name=john smith`. -/
theorem blacklisted_check_contract_w :
    (serverMin ⟨0, 0⟩ ⟨"GET", "/blacklisted", QueryVal.str "john smith"⟩).status
      = 200 ∧
    getField (serverMin ⟨0, 0⟩
        ⟨"GET", "/blacklisted", QueryVal.str "john smith"⟩).body "name"
      = some (Json.str "john smith") ∧
    (getField (serverMin ⟨0, 0⟩
        ⟨"GET", "/blacklisted", QueryVal.str "john smith"⟩).body
        "isBlacklisted" = some (Json.bool true) ↔
      ∃ b ∈ blacklistedNames, jsToLower b = jsToLower "john smith") ∧
    serverFull (Json.str "") ⟨0, 0⟩ false false
        ⟨"GET", "/blacklisted", QueryVal.str "john smith"⟩ =
      serverMin ⟨0, 0⟩ ⟨"GET", "/blacklisted", QueryVal.str "john smith"⟩ :=
  blacklisted_check_contract (Json.str "") ⟨0, 0⟩ "john smith" (by decide)

/-- C2: for `GET /blacklisted` with `name` absent or empty, both variants
answer 200 with the full ten-entry list and `count = 10`. -/
theorem blacklisted_listing_contract (spec : Json) (c : Clock) (q : QueryVal)
    (hq : q = QueryVal.undef ∨ q = QueryVal.str "") :
    (serverMin c ⟨"GET", "/blacklisted", q⟩).status = 200 ∧
    getField (serverMin c ⟨"GET", "/blacklisted", q⟩).body "blacklistedNames"
      = some (Json.arr (blacklistedNames.map Json.str)) ∧
    getField (serverMin c ⟨"GET", "/blacklisted", q⟩).body "count"
      = some (Json.num blacklistedNames.length) ∧
    blacklistedNames =
      ["John Smith", "Jane Doe", "Mike Johnson", "Sarah Wilson",
       "Robert Brown", "Emily Davis", "David Miller", "Lisa Garcia",
       "James Rodriguez", "Maria Martinez"] ∧
    blacklistedNames.length = 10 ∧
    serverFull spec c false false ⟨"GET", "/blacklisted", q⟩ =
      serverMin c ⟨"GET", "/blacklisted", q⟩ := by
  have hb := blacklistedHandler_falsy q hq
  have hdocs : isDocsPath "/blacklisted" = false := by decide
  refine ⟨?_, ?_, ?_, rfl, rfl, ?_⟩ <;>
    simp [serverMin, serverFull, hdocs, hb, listingResponse, getField,
      List.lookup]

/-- Witness for C2 with the parameter absent. -/
theorem blacklisted_listing_contract_w :
    (serverMin ⟨0, 0⟩ ⟨"GET", "/blacklisted", QueryVal.undef⟩).status = 200 ∧
    getField (serverMin ⟨0, 0⟩
        ⟨"GET", "/blacklisted", QueryVal.undef⟩).body "blacklistedNames"
      = some (Json.arr (blacklistedNames.map Json.str)) ∧
    getField (serverMin ⟨0, 0⟩
        ⟨"GET", "/blacklisted", QueryVal.undef⟩).body "count"
      = some (Json.num blacklistedNames.length) ∧
    blacklistedNames =
      ["John Smith", "Jane Doe", "Mike Johnson", "Sarah Wilson",
       "Robert Brown", "Emily Davis", "David Miller", "Lisa Garcia",
       "James Rodriguez", "Maria Martinez"] ∧
    blacklistedNames.length = 10 ∧
    serverFull (Json.str "") ⟨0, 0⟩ false false
        ⟨"GET", "/blacklisted", QueryVal.undef⟩ =
      serverMin ⟨0, 0⟩ ⟨"GET", "/blacklisted", QueryVal.undef⟩ :=
  blacklisted_listing_contract (Json.str "") ⟨0, 0⟩ QueryVal.undef (Or.inl rfl)

/-- C3: the blacklist is constant after startup — no handler mutates it, so
any two Branch A responses, at any clocks and in either variant, are the
same fixed listing whose `count` equals the list's length. -/
theorem blacklist_constant (spec : Json) (c₁ c₂ : Clock) (r₁ r₂ : Request)
    (h₁ : isBranchA r₁) (h₂ : isBranchA r₂) :
    serverMin c₁ r₁ = serverMin c₂ r₂ ∧
    serverMin c₁ r₁ = listingResponse ∧
    serverFull spec c₁ false false r₁ = listingResponse ∧
    getField listingResponse.body "count"
      = some (Json.num blacklistedNames.length) := by
  obtain ⟨hm₁, hp₁, hq₁⟩ := h₁
  obtain ⟨hm₂, hp₂, hq₂⟩ := h₂
  obtain ⟨m₁, p₁, q₁⟩ := r₁
  obtain ⟨m₂, p₂, q₂⟩ := r₂
  dsimp only at hm₁ hp₁ hq₁ hm₂ hp₂ hq₂
  subst hm₁ hp₁ hm₂ hp₂
  have hb₁ := blacklistedHandler_falsy q₁ hq₁
  have hb₂ := blacklistedHandler_falsy q₂ hq₂
  have hdocs : isDocsPath "/blacklisted" = false := by decide
  refine ⟨?_, ?_, ?_, ?_⟩ <;>
    simp [serverMin, serverFull, hdocs, hb₁, hb₂, listingResponse, getField,
      List.lookup]

/-- Witness for C3 at two distinct clocks and the two falsy parameter
shapes. -/
theorem blacklist_constant_w :
    serverMin ⟨0, 0⟩ ⟨"GET", "/blacklisted", QueryVal.undef⟩ =
      serverMin ⟨86400000, 5⟩ ⟨"GET", "/blacklisted", QueryVal.str ""⟩ ∧
    serverMin ⟨0, 0⟩ ⟨"GET", "/blacklisted", QueryVal.undef⟩ =
      listingResponse ∧
    serverFull (Json.str "") ⟨0, 0⟩ false false
        ⟨"GET", "/blacklisted", QueryVal.undef⟩ = listingResponse ∧
    getField listingResponse.body "count"
      = some (Json.num blacklistedNames.length) :=
  blacklist_constant (Json.str "") ⟨0, 0⟩ ⟨86400000, 5⟩
    ⟨"GET", "/blacklisted", QueryVal.undef⟩
    ⟨"GET", "/blacklisted", QueryVal.str ""⟩
    ⟨rfl, rfl, Or.inl rfl⟩ ⟨rfl, rfl, Or.inr rfl⟩

/-- C4: every request gets exactly one response (the dispatchers are total
functions) whose status is 200, 404, 429 or 500 — in particular never 400. -/
theorem status_taxonomy (spec : Json) (c : Clock) (gl bl : Bool)
    (req : Request) :
    ((serverFull spec c gl bl req).status = 200 ∨
     (serverFull spec c gl bl req).status = 404 ∨
     (serverFull spec c gl bl req).status = 429 ∨
     (serverFull spec c gl bl req).status = 500) ∧
    ((serverMin c req).status = 200 ∨
     (serverMin c req).status = 404 ∨
     (serverMin c req).status = 429 ∨
     (serverMin c req).status = 500) := by
  rcases blacklistedHandler_status req.nameParam with h | h <;>
    refine ⟨?_, ?_⟩ <;>
    first
      | (unfold serverFull; split_ifs <;>
          simp [h, healthResponse, notFoundResponse])
      | (unfold serverMin; split_ifs <;>
          simp [h, healthResponse, notFoundResponse])

/-- C5: a request matching no route gets the 404 body with exactly the three
literal endpoint strings; the full variant (not rate-limited, docs aside)
answers identically. -/
theorem unmatched_404 (spec : Json) (c : Clock) (req : Request)
    (h1 : ¬(req.method = "GET" ∧ req.path = "/health"))
    (h2 : ¬(req.method = "GET" ∧ req.path = "/blacklisted")) :
    serverMin c req =
      { status := 404,
        body := Json.obj
          [("error", Json.str "Endpoint not found"),
           ("availableEndpoints",
            Json.arr [Json.str "GET /health", Json.str "GET /blacklisted",
                      Json.str "GET /blacklisted?name=<name>"])] } ∧
    (isDocsPath req.path = false →
      serverFull spec c false false req = serverMin c req) := by
  constructor
  · unfold serverMin
    rw [if_neg h1, if_neg h2]
    rfl
  · intro hd
    unfold serverFull serverMin
    simp [h1, h2, hd]

/-- Witness for C5 at `GET /nonexistent`. -/
theorem unmatched_404_w :
    serverMin ⟨0, 0⟩ ⟨"GET", "/nonexistent", QueryVal.undef⟩ =
      { status := 404,
        body := Json.obj
          [("error", Json.str "Endpoint not found"),
           ("availableEndpoints",
            Json.arr [Json.str "GET /health", Json.str "GET /blacklisted",
                      Json.str "GET /blacklisted?name=<name>"])] } ∧
    (isDocsPath "/nonexistent" = false →
      serverFull (Json.str "") ⟨0, 0⟩ false false
          ⟨"GET", "/nonexistent", QueryVal.undef⟩ =
        serverMin ⟨0, 0⟩ ⟨"GET", "/nonexistent", QueryVal.undef⟩) :=
  unmatched_404 (Json.str "") ⟨0, 0⟩ ⟨"GET", "/nonexistent", QueryVal.undef⟩
    (by decide) (by decide)

/-- C6: `GET /health` answers 200 with `status = "healthy"`, a constant
service string, the ISO-8601 serialization of the current time (valid, with
millisecond precision, for any time value up to year 9999), and the process
uptime — non-negative and non-decreasing given that the runtime's uptime
counter is. -/
theorem health_contract (c c' : Clock) (q q' : QueryVal)
    (hbound : c.nowMs ≤ 253402300799999)
    (hpos : 0 ≤ c.uptime) (hmono : c.uptime ≤ c'.uptime) :
    (serverMin c ⟨"GET", "/health", q⟩).status = 200 ∧
    (serverMin c ⟨"GET", "/health", q⟩).body = Json.obj
      [("status", Json.str "healthy"),
       ("timestamp", Json.str (toISOString c.nowMs)),
       ("uptime", Json.num c.uptime),
       ("service", Json.str "blacklisted-mock-api-server")] ∧
    isValidIso (toISOString c.nowMs) = true ∧
    asNum (getField (serverMin c ⟨"GET", "/health", q⟩).body "uptime")
      = some c.uptime ∧
    0 ≤ c.uptime ∧
    asNum (getField (serverMin c' ⟨"GET", "/health", q'⟩).body "uptime")
      = some c'.uptime ∧
    c.uptime ≤ c'.uptime := by
  refine ⟨rfl, rfl, isValidIso_toISOString c.nowMs hbound, ?_, hpos, ?_,
    hmono⟩ <;>
    simp [serverMin, healthResponse, getField, List.lookup, asNum]

/-- Witness for C6 at the epoch with uptimes 0 and 1. -/
theorem health_contract_w :
    (serverMin ⟨0, 0⟩ ⟨"GET", "/health", QueryVal.undef⟩).status = 200 ∧
    (serverMin ⟨0, 0⟩ ⟨"GET", "/health", QueryVal.undef⟩).body = Json.obj
      [("status", Json.str "healthy"),
       ("timestamp", Json.str (toISOString 0)),
       ("uptime", Json.num 0),
       ("service", Json.str "blacklisted-mock-api-server")] ∧
    isValidIso (toISOString 0) = true ∧
    asNum (getField
        (serverMin ⟨0, 0⟩ ⟨"GET", "/health", QueryVal.undef⟩).body "uptime")
      = some 0 ∧
    (0 : ℚ) ≤ 0 ∧
    asNum (getField
        (serverMin ⟨0, 1⟩ ⟨"GET", "/health", QueryVal.undef⟩).body "uptime")
      = some 1 ∧
    (0 : ℚ) ≤ 1 :=
  health_contract ⟨0, 0⟩ ⟨0, 1⟩ QueryVal.undef QueryVal.undef
    (by norm_num) (by norm_num) (by norm_num)

/-- C7: the top-level error handler converts any fault to 500 with the fixed
error string and the fault's message; the response is independent of the
stack trace, which is therefore never sent to the client. -/
theorem error_handler_contract (e : JsError) :
    errorHandler e =
      { status := 500,
        body := Json.obj
          [("error", Json.str "Internal server error"),
           ("message", Json.str e.message)] } ∧
    ∀ e' : JsError, e'.message = e.message → errorHandler e' = errorHandler e := by
  refine ⟨rfl, fun e' h => ?_⟩
  simp [errorHandler, h]

/-- Witness for C7: two faults with the same message but different stacks get
the same response. -/
theorem error_handler_contract_w :
    errorHandler ⟨"boom", "Error: boom at a.js:1"⟩ =
      { status := 500,
        body := Json.obj
          [("error", Json.str "Internal server error"),
           ("message", Json.str "boom")] } ∧
    ∀ e' : JsError, e'.message = JsError.message ⟨"boom", "Error: boom at a.js:1"⟩ →
      errorHandler e' = errorHandler ⟨"boom", "Error: boom at a.js:1"⟩ :=
  error_handler_contract ⟨"boom", "Error: boom at a.js:1"⟩

/-- C8 counterexample: the same `GET /health` request at two different times
yields different responses (the timestamp field differs), so responses are
not determined by the request alone on every route. -/
theorem determinism_counterexample :
    serverMin ⟨0, 0⟩ ⟨"GET", "/health", QueryVal.undef⟩ ≠
      serverMin ⟨86400000, 0⟩ ⟨"GET", "/health", QueryVal.undef⟩ := by
  intro h
  have h2 := congrArg (fun r => asString (getField r.body "timestamp")) h
  exact absurd h2 (by decide)

/-- C8 amended: for every request whose path is not `/health`, the response
is determined by the request alone — identical at any two clocks — in the
minimal variant, and in the full variant once the rate limiters' decisions
are held fixed. -/
theorem determinism_amended (spec : Json) (c₁ c₂ : Clock) (gl bl : Bool)
    (req : Request) (h : req.path ≠ "/health") :
    serverMin c₁ req = serverMin c₂ req ∧
    serverFull spec c₁ gl bl req = serverFull spec c₂ gl bl req := by
  have hh : ¬(req.method = "GET" ∧ req.path = "/health") := fun hc => h hc.2
  constructor
  · unfold serverMin
    simp only [if_neg hh]
  · unfold serverFull
    simp only [if_neg hh]

/-- Witness for C8 amended at a `/blacklisted` request and two clocks. -/
theorem determinism_amended_w :
    serverMin ⟨0, 0⟩ ⟨"GET", "/blacklisted", QueryVal.undef⟩ =
      serverMin ⟨86400000, 5⟩ ⟨"GET", "/blacklisted", QueryVal.undef⟩ ∧
    serverFull (Json.str "") ⟨0, 0⟩ false false
        ⟨"GET", "/blacklisted", QueryVal.undef⟩ =
      serverFull (Json.str "") ⟨86400000, 5⟩ false false
        ⟨"GET", "/blacklisted", QueryVal.undef⟩ :=
  determinism_amended (Json.str "") ⟨0, 0⟩ ⟨86400000, 5⟩ false false
    ⟨"GET", "/blacklisted", QueryVal.undef⟩ (by decide)

/-- C9: with both limiter decisions negative and documentation paths set
aside, the full variant and the minimal variant produce identical responses
on every request. -/
theorem variants_equiv (spec : Json) (c : Clock) (req : Request)
    (h : isDocsPath req.path = false) :
    serverFull spec c false false req = serverMin c req := by
  unfold serverFull serverMin
  simp [h]

/-- Witness for C9 at `GET /health`. -/
theorem variants_equiv_w :
    serverFull (Json.str "") ⟨0, 0⟩ false false
        ⟨"GET", "/health", QueryVal.undef⟩ =
      serverMin ⟨0, 0⟩ ⟨"GET", "/health", QueryVal.undef⟩ :=
  variants_equiv (Json.str "") ⟨0, 0⟩ ⟨"GET", "/health", QueryVal.undef⟩
    (by decide)

/-- C10: a repeated `name` key parses to an array, whose missing
`toLowerCase` method makes the handler throw; the error handler turns this
into a 500 response (not Branch B's 200), identically in both variants. -/
theorem array_name_500 (spec : Json) (c : Clock) (l : List String) :
    serverMin c ⟨"GET", "/blacklisted", QueryVal.arr l⟩ =
      { status := 500,
        body := Json.obj
          [("error", Json.str "Internal server error"),
           ("message", Json.str "name.toLowerCase is not a function")] } ∧
    serverFull spec c false false ⟨"GET", "/blacklisted", QueryVal.arr l⟩ =
      serverMin c ⟨"GET", "/blacklisted", QueryVal.arr l⟩ := by
  have hdocs : isDocsPath "/blacklisted" = false := by decide
  constructor <;>
    simp [serverMin, serverFull, hdocs, blacklistedHandler, errorHandler]

end Blacklist
